import Mathlib

/-!
Verification of the chat session lifecycle implemented by the
ChatbotInterface component (file `src/components/chatbot/ChatbotInterface.tsx`).

The React component is shallowly embedded: the `useState` hooks become
`ChatState`; the observable environment (the locally stored session id, the
ordered log of session-store requests, the ordered log of completion
requests, and toast notifications) is added in `SysState`; each user
affordance or network callback becomes a `ChatEvent` applied by `step`.
The `async` handler `handleSend` is split at its await point on the
completion request: `handleSendStart` is the synchronous prefix up to and
including issuing the completion request, and `handleSendResolve` is the
continuation that runs when the completion settles.  `Date` values are
modelled as natural clock values passed in explicitly.
-/

namespace Chatbot

/-- Message role; the source spells the assistant role `bot`. -/
inductive Role where
  | user
  | bot
  deriving DecidableEq

/-- The `Message` record of the source (its `Date` timestamp modelled as a
natural clock value). -/
structure Message where
  id : String
  content : String
  role : Role
  timestamp : Nat
  deriving DecidableEq

/-- The greeting text of the seed assistant message. -/
def greetingText : String :=
  "Hi there! I\x27m MedAssist, your Indian healthcare assistant. I can help with health questions, suggest appropriate specialists in India, and provide information about medications available here. How can I help you today?"

/-- The seed greeting (`initialMessages` in the source); its `new Date()`
timestamp is modelled as 0. -/
def initialMessages : List Message :=
  [{ id := "1", content := greetingText, role := Role.bot, timestamp := 0 }]

/-- The three precomposed suggested queries rendered as buttons. -/
def suggestedQueries : List String :=
  ["What specialist should I see for joint pain in India?",
   "Are Ayurvedic remedies effective for digestive issues?",
   "Common symptoms of dengue fever?"]

/-- A request to the `mongodb-chat` edge function (the session store). -/
inductive StoreCall where
  | getSession (sessionId : String)
  | saveSession (sessionId : String) (messages : List Message)
  | saveMessage (sessionId : String) (message : Message)
  | endSession (sessionId : String)
  deriving DecidableEq

/-- Whether a store request is a `saveMessage` (single-record append). -/
def StoreCall.isSaveMessage : StoreCall → Bool
  | StoreCall.saveMessage _ _ => true
  | _ => false

/-- A request to the `gemini-health-chat` edge function (the completion
service): the raw user text as prompt plus a bounded role/content history. -/
structure CompletionCall where
  prompt : String
  previousMessages : List (Role × String)
  deriving DecidableEq

/-- Outcome of the hydration fetch: `err` covers both a returned error
object and a thrown transport error (the two code paths coincide: the seed
is kept and nothing is persisted). -/
inductive GetSessionResult where
  | err
  | ok (messages : List Message)
  deriving DecidableEq

/-- Outcome of a completion request: `ok` with the generated text (possibly
empty, modelling a falsy `generatedText`), or `err` for a returned error or
a thrown transport error. -/
inductive CompletionResult where
  | ok (generatedText : String)
  | err
  deriving DecidableEq

/-- Outcome of the remote purge issued by `endChat`, reported in the error
field of the resolved invoke response.  `endChat` does not read that field,
so the outcome does not influence the transition. -/
inductive PurgeResult where
  | ok
  | err
  deriving DecidableEq

/-- The `useState` hooks of the component that the chat logic reads and
writes. -/
structure ChatState where
  input : String
  messages : List Message
  isLoading : Bool
  sessionId : String
  deriving DecidableEq

/-- The component state together with its observable environment: the
locally persisted session id (`localStorage` under `medassist_session_id`),
the ordered log of session-store requests, the ordered log of completion
requests, and the toast descriptions shown. -/
structure SysState where
  chat : ChatState
  localStore : Option String
  storeLog : List StoreCall
  completionLog : List CompletionCall
  toasts : List String
  deriving DecidableEq

/-- Whitespace trim of JavaScript `String.prototype.trim`, modelled over
the character sequence of the string: drop leading and trailing whitespace.
The emptiness test `!input.trim()` of the source becomes `jsTrim input = ""`. -/
def jsTrim (s : String) : String :=
  String.mk (((s.data.dropWhile Char.isWhitespace).reverse.dropWhile Char.isWhitespace).reverse)

/-- Context limit: the literal 10 of `messages.slice(-10)` in `handleSend`. -/
def maxTurns : Nat := 10

/-- The history sent to the completion service, from
`messages.slice(-10).map(...)`: the last `maxTurns` messages in order,
keeping only role and content. -/
def contextWindow (messages : List Message) : List (Role × String) :=
  (messages.drop (messages.length - maxTurns)).map (fun m => (m.role, m.content))

/-- Session identity resolution from `initSession`: reuse the stored id or
mint a fresh one (modelling `uuidv4()`). -/
def resolveSessionId (stored : Option String) (fresh : String) : String :=
  match stored with
  | some sid => sid
  | none => fresh

/-- Hydration (`initSession`): resolve and locally persist the session id,
fetch the remote transcript; a non-empty fetch hydrates the transcript; an
empty fetch keeps the seed greeting and bulk-saves it via `saveSession`
(guarded by `initialMessages.length > 0` as in the source); a failed fetch
keeps the seed and persists nothing. -/
def initSession (stored : Option String) (fresh : String) (remote : GetSessionResult) : SysState :=
  let sid := resolveSessionId stored fresh
  let chat0 : ChatState :=
    { input := "", messages := initialMessages, isLoading := false, sessionId := sid }
  match remote with
  | GetSessionResult.err =>
      { chat := chat0, localStore := some sid, storeLog := [StoreCall.getSession sid],
        completionLog := [], toasts := [] }
  | GetSessionResult.ok msgs =>
      if msgs.length > 0 then
        { chat := { chat0 with messages := msgs }, localStore := some sid,
          storeLog := [StoreCall.getSession sid], completionLog := [], toasts := [] }
      else if initialMessages.length > 0 then
        { chat := chat0, localStore := some sid,
          storeLog := [StoreCall.getSession sid, StoreCall.saveSession sid initialMessages],
          completionLog := [], toasts := [] }
      else
        { chat := chat0, localStore := some sid, storeLog := [StoreCall.getSession sid],
          completionLog := [], toasts := [] }

/-- The user message built in `handleSend`; id and timestamp both come from
`Date.now()` at submission time. -/
def userMessage (content : String) (now : Nat) : Message :=
  { id := toString now, content := content, role := Role.user, timestamp := now }

/-- Content of the assistant message appended when the completion settles:
the generated text, the fixed apology when the service returns no usable
text, or the fixed connection-error text when the call fails. -/
def responseText : CompletionResult → String
  | CompletionResult.ok generatedText =>
      if generatedText = "" then "I\x27m sorry, I couldn\x27t process your request."
      else generatedText
  | CompletionResult.err => "I\x27m having trouble connecting right now. Please try again later."

/-- The assistant message appended when the completion settles (its id is
`Date.now() + 1` at response time). -/
def botMessage (res : CompletionResult) (now : Nat) : Message :=
  { id := toString (now + 1), content := responseText res, role := Role.bot, timestamp := now }

/-- Synchronous prefix of `handleSend` up to the completion request.  Empty
post-trim input returns unchanged with no calls.  Otherwise the user
message is appended, the input cleared, the loading flag set, the user
message persisted via `saveMessage`, and a completion requested whose
prompt is the raw input and whose history is `contextWindow` of the
captured `messages` value — the state the closure saw, before the append. -/
def handleSendStart (st : ChatState) (now : Nat) :
    ChatState × List StoreCall × Option CompletionCall :=
  if jsTrim st.input = "" then (st, [], none)
  else
    let m := userMessage st.input now
    ({ st with messages := st.messages ++ [m], input := "", isLoading := true },
     [StoreCall.saveMessage st.sessionId m],
     some { prompt := st.input, previousMessages := contextWindow st.messages })

/-- The toast shown when the completion settles: none on success, the
fixed transient error description on failure. -/
def failureToasts : CompletionResult → List String
  | CompletionResult.ok _ => []
  | CompletionResult.err => ["Couldn\x27t get a response. Please try again later."]

/-- Continuation of `handleSend` when the completion settles: append the
assistant message, persist it via `saveMessage`, toast on failure, and
clear the loading flag (the `finally` block). -/
def handleSendResolve (st : ChatState) (res : CompletionResult) (now : Nat) :
    ChatState × List StoreCall × List String :=
  let m := botMessage res now
  ({ st with messages := st.messages ++ [m], isLoading := false },
   [StoreCall.saveMessage st.sessionId m],
   failureToasts res)

/-- `endChat`: request the remote purge, then remove the locally stored id
and show the closing toast.  The awaited invoke resolves with a data/error
pair rather than rejecting on a remote failure (the other call sites of
this component branch on that returned error field), and `endChat` ignores
the returned value entirely: `removeItem` and the closing toast run whether
the purge succeeded or failed, and the `catch` block is not reachable
through a purge failure. -/
def endChat (sessionId : String) (_stored : Option String) (_res : PurgeResult) :
    Option String × List StoreCall × List String :=
  (none, [StoreCall.endSession sessionId], ["Your conversation has been deleted."])

/-- `handleSuggestedQuery`: put the query text into the input field (the
rest of the handler only resizes the textarea). -/
def handleSuggestedQuery (query : String) (st : ChatState) : ChatState :=
  { st with input := query }

/-- Render condition of the suggested-query buttons:
`messages.length <= 1 && !isLoading`. -/
def suggestionsShown (st : ChatState) : Bool :=
  decide (st.messages.length ≤ 1) && !st.isLoading

/-- The user affordances and network callbacks that can act on a mounted
component.  Guards mirror the rendered `disabled` attributes: typing and
sending are impossible while `isLoading` (textarea and send button are
disabled), suggestion clicks exist only while the buttons are rendered, and
a completion can settle only while one is outstanding. -/
inductive ChatEvent where
  | edit (text : String)
  | suggest (query : String)
  | send (now : Nat)
  | completionResponse (res : CompletionResult) (now : Nat)
  | endButton (res : PurgeResult)
  deriving DecidableEq

/-- One observable transition of the component; `none` when the event is
impossible in the given state. -/
def step (s : SysState) : ChatEvent → Option SysState
  | ChatEvent.edit text =>
      if s.chat.isLoading then none
      else some { s with chat := { s.chat with input := text } }
  | ChatEvent.suggest query =>
      if suggestionsShown s.chat && suggestedQueries.contains query then
        some { s with chat := handleSuggestedQuery query s.chat }
      else none
  | ChatEvent.send now =>
      if s.chat.isLoading then none
      else
        let r := handleSendStart s.chat now
        some { s with chat := r.1,
                      storeLog := s.storeLog ++ r.2.1,
                      completionLog := s.completionLog ++ r.2.2.toList }
  | ChatEvent.completionResponse res now =>
      if s.chat.isLoading then
        let r := handleSendResolve s.chat res now
        some { s with chat := r.1,
                      storeLog := s.storeLog ++ r.2.1,
                      toasts := s.toasts ++ r.2.2 }
      else none
  | ChatEvent.endButton res =>
      let r := endChat s.chat.sessionId s.localStore res
      some { s with localStore := r.1,
                    storeLog := s.storeLog ++ r.2.1,
                    toasts := s.toasts ++ r.2.2 }

/-- One full successful user turn: type the input, run `handleSend` up to
the completion request, then settle the completion with the given reply. -/
structure Turn where
  input : String
  reply : String
  sendTime : Nat
  replyTime : Nat
  deriving DecidableEq

/-- Component state after executing one successful turn. -/
def runTurn (st : ChatState) (t : Turn) : ChatState :=
  let r := handleSendStart { st with input := t.input } t.sendTime
  (handleSendResolve r.1 (CompletionResult.ok t.reply) t.replyTime).1

/-- Component state after executing a sequence of successful turns. -/
def runTurns (st : ChatState) : List Turn → ChatState
  | [] => st
  | t :: ts => runTurns (runTurn st t) ts

/-- Freshly hydrated state: empty remote store, no stored id, minted id `sid`. -/
def hydratedEmpty : SysState := initSession none "sid" (GetSessionResult.ok [])

/-- The context window never holds more than `maxTurns` entries. -/
theorem contextWindow_length_le (l : List Message) : (contextWindow l).length ≤ maxTurns := by
  unfold contextWindow
  rw [List.length_map, List.length_drop]
  omega

/-- A transcript of at most `maxTurns` messages is sent whole. -/
theorem contextWindow_full (l : List Message) (h : l.length ≤ maxTurns) :
    contextWindow l = l.map (fun m => (m.role, m.content)) := by
  unfold contextWindow
  rw [Nat.sub_eq_zero_of_le h, List.drop_zero]

/-- The window over a transcript ending in `m` ends with `m`'s projection. -/
theorem contextWindow_concat_getLast (l : List Message) (m : Message) :
    (contextWindow (l ++ [m])).getLast? = some (m.role, m.content) := by
  unfold contextWindow
  have hk : (l ++ [m]).length - maxTurns ≤ l.length := by
    simp only [List.length_append, List.length_cons, List.length_nil, maxTurns]
    omega
  rw [List.drop_append_of_le_length hk, List.map_append]
  simp

/-- The window over a non-empty transcript ends with the transcript's last
message, projected to role and content. -/
theorem contextWindow_getLast (l : List Message) (h : l ≠ []) :
    (contextWindow l).getLast? = l.getLast?.map (fun m => (m.role, m.content)) := by
  have hne : l.drop (l.length - maxTurns) ≠ [] := by
    have hp : 0 < l.length := List.length_pos.mpr h
    have : 0 < (l.drop (l.length - maxTurns)).length := by
      rw [List.length_drop]
      simp only [maxTurns]
      omega
    exact List.length_pos.mp this
  have hlast : l.getLast? = (l.drop (l.length - maxTurns)).getLast? := by
    conv_lhs => rw [← List.take_append_drop (l.length - maxTurns) l]
    exact List.getLast?_append_of_ne_nil _ hne
  unfold contextWindow
  rw [List.getLast?_map, hlast]

/-- No event ever shortens the transcript held by a mounted component. -/
theorem step_messages_mono (s : SysState) (e : ChatEvent) (s' : SysState)
    (h : step s e = some s') : s.chat.messages.length ≤ s'.chat.messages.length := by
  cases e with
  | edit text =>
      by_cases hl : s.chat.isLoading
      · simp [step, hl] at h
      · simp [step, hl] at h
        subst h
        simp
  | suggest query =>
      simp [step] at h
      obtain ⟨h1, h2⟩ := h
      subst h2
      simp [handleSuggestedQuery]
  | send now =>
      by_cases hl : s.chat.isLoading
      · simp [step, hl] at h
      · by_cases ht : jsTrim s.chat.input = ""
        · simp [step, hl, handleSendStart, ht] at h
          subst h
          simp
        · simp [step, hl, handleSendStart, ht] at h
          subst h
          simp
  | completionResponse res now =>
      by_cases hl : s.chat.isLoading
      · simp [step, hl, handleSendResolve] at h
        subst h
        simp
      · simp [step, hl] at h
  | endButton res =>
      simp [step] at h
      subst h
      simp

/-- One successful turn grows the transcript by exactly two messages. -/
theorem runTurn_length (st : ChatState) (t : Turn) (ht : jsTrim t.input ≠ "") :
    (runTurn st t).messages.length = st.messages.length + 2 := by
  simp [runTurn, handleSendStart, handleSendResolve, ht]

/-- Explicit form of a typing transition while no completion is pending. -/
theorem step_edit_of_not_loading (s : SysState) (text : String)
    (hl : s.chat.isLoading = false) :
    step s (ChatEvent.edit text) = some { s with chat := { s.chat with input := text } } := by
  simp [step, hl]

/-- Explicit form of a non-empty submission while no completion is pending. -/
theorem step_send_of_not_loading (s : SysState) (now : Nat)
    (hl : s.chat.isLoading = false) (ht : jsTrim s.chat.input ≠ "") :
    step s (ChatEvent.send now) =
      some { s with
             chat := { s.chat with
                       messages := s.chat.messages ++ [userMessage s.chat.input now],
                       input := "", isLoading := true },
             storeLog := s.storeLog ++
               [StoreCall.saveMessage s.chat.sessionId (userMessage s.chat.input now)],
             completionLog := s.completionLog ++
               [{ prompt := s.chat.input, previousMessages := contextWindow s.chat.messages }] } := by
  simp [step, hl, handleSendStart, ht]

/-- Explicit form of a completion settling while one is pending. -/
theorem step_completionResponse_of_isLoading (s : SysState) (res : CompletionResult)
    (now : Nat) (hl : s.chat.isLoading = true) :
    step s (ChatEvent.completionResponse res now) =
      some { s with
             chat := { s.chat with
                       messages := s.chat.messages ++ [botMessage res now],
                       isLoading := false },
             storeLog := s.storeLog ++
               [StoreCall.saveMessage s.chat.sessionId (botMessage res now)],
             toasts := s.toasts ++ failureToasts res } := by
  simp [step, hl, handleSendResolve]

/-- Explicit form of the End Chat transition (always enabled). -/
theorem step_endButton_eq (s : SysState) (res : PurgeResult) :
    step s (ChatEvent.endButton res) =
      some { s with
             localStore := (endChat s.chat.sessionId s.localStore res).1,
             storeLog := s.storeLog ++ (endChat s.chat.sessionId s.localStore res).2.1,
             toasts := s.toasts ++ (endChat s.chat.sessionId s.localStore res).2.2 } := rfl

/-- Component state at the moment the user submits `hello` as the first
message after an empty-store hydration. -/
def c1State : ChatState :=
  { input := "hello", messages := initialMessages, isLoading := false, sessionId := "sid" }

/-- Trace for refuting C1: hydrate against an empty store, type `hello`,
submit at clock 100. -/
def c1Trace : Option SysState :=
  (step hydratedEmpty (ChatEvent.edit "hello")).bind fun s1 =>
  step s1 (ChatEvent.send 100)

/-- C1 counterexample.  On the very first submission the completion request
carries only the seed greeting as history: the context window sent is
`[(bot, greeting)]`, while the transcript's most recently appended message
is the just-submitted user message `hello`.  The window neither contains
nor ends with that user message, refuting the claim that the window always
ends with the most recently appended message at call time. -/
theorem claim_C1_counterexample :
    (c1Trace.map fun s => s.completionLog.map CompletionCall.previousMessages) =
      some [[(Role.bot, greetingText)]] ∧
    (c1Trace.map fun s => s.chat.messages.map Message.content) =
      some [greetingText, "hello"] ∧
    [(Role.bot, greetingText)].getLast? ≠ some (Role.user, "hello") := by
  refine ⟨rfl, rfl, by decide⟩

/-- C1 (amended).  The context window of a completion call is computed from
the transcript as the submit handler captured it, before the user message
is appended: the call carries the raw input as prompt together with
`contextWindow` of the pre-append transcript, the user message is appended
to the transcript, and (for non-empty transcripts) the window ends with the
message that was last before this submission — not with the just-submitted
user message. -/
theorem claim_C1_theorem (st : ChatState) (now : Nat) (h : jsTrim st.input ≠ "") :
    (handleSendStart st now).2.2 =
      some { prompt := st.input, previousMessages := contextWindow st.messages } ∧
    (handleSendStart st now).1.messages = st.messages ++ [userMessage st.input now] ∧
    (st.messages ≠ [] →
      (contextWindow st.messages).getLast? =
        st.messages.getLast?.map fun m => (m.role, m.content)) := by
  refine ⟨?_, ?_, fun hne => contextWindow_getLast st.messages hne⟩ <;>
    simp [handleSendStart, h]

/-- Witness for the amended C1 at a concrete first submission. -/
theorem claim_C1_witness :
    (jsTrim "hello" ≠ "") ∧
    (handleSendStart c1State 100).2.2 =
      some { prompt := "hello", previousMessages := [(Role.bot, greetingText)] } := by
  refine ⟨by decide, ?_⟩
  have h := (claim_C1_theorem c1State 100 (by decide)).1
  rw [h]
  rfl

/-- C3 (confirmed).  On explicit termination, whatever the remote purge
reports, the locally stored session id is erased, and a subsequent identity
resolution mints the fresh id — never the previous SessionId (ids are
freshly minted, not recycled). -/
theorem claim_C3_theorem (sid fresh : String) (stored : Option String) (res : PurgeResult) :
    (endChat sid stored res).1 = none ∧
    resolveSessionId (endChat sid stored res).1 fresh = fresh ∧
    (fresh ≠ sid → resolveSessionId (endChat sid stored res).1 fresh ≠ sid) :=
  ⟨rfl, rfl, fun h => h⟩

/-- Witness for C3 at concrete ids with a failed purge. -/
theorem claim_C3_witness :
    (endChat "sid" (some "sid") PurgeResult.err).1 = none ∧
    ("fresh-id" ≠ "sid") ∧
    resolveSessionId (endChat "sid" (some "sid") PurgeResult.err).1 "fresh-id" ≠ "sid" := by
  have h := claim_C3_theorem "sid" "fresh-id" (some "sid") PurgeResult.err
  exact ⟨h.1, by decide, h.2.2 (by decide)⟩

/-- C4 counterexample.  Hydrating against an empty remote store issues
exactly a `getSession` followed by a bulk `saveSession` of the seed; no
`saveMessage` request is made during hydration, refuting the claim that the
seed is persisted via the `saveMessage` operation. -/
theorem claim_C4_counterexample :
    hydratedEmpty.storeLog =
      [StoreCall.getSession "sid", StoreCall.saveSession "sid" initialMessages] ∧
    hydratedEmpty.storeLog.any StoreCall.isSaveMessage = false :=
  ⟨rfl, rfl⟩

/-- C4 (amended).  When the remote fetch during hydration returns an empty
transcript, the local transcript is initialized with exactly one seed
assistant greeting message, and that seed is immediately persisted to the
remote store — but via the bulk `saveSession` operation, not `saveMessage`. -/
theorem claim_C4_theorem (stored : Option String) (fresh : String) :
    (initSession stored fresh (GetSessionResult.ok [])).chat.messages = initialMessages ∧
    initialMessages.length = 1 ∧
    initialMessages.map Message.role = [Role.bot] ∧
    (initSession stored fresh (GetSessionResult.ok [])).storeLog =
      [StoreCall.getSession (resolveSessionId stored fresh),
       StoreCall.saveSession (resolveSessionId stored fresh) initialMessages] ∧
    (initSession stored fresh (GetSessionResult.ok [])).storeLog.any
      StoreCall.isSaveMessage = false :=
  ⟨rfl, rfl, rfl, rfl, rfl⟩

/-- Trace for refuting C2: hydrate against an empty store, type `hello`,
submit at clock 100, press End Chat (purge succeeds) while the completion
is in flight, let the completion settle with `pong`, then type `again` and
submit once more at clock 300. -/
def c2Trace : Option SysState :=
  (step hydratedEmpty (ChatEvent.edit "hello")).bind fun s1 =>
  (step s1 (ChatEvent.send 100)).bind fun s2 =>
  (step s2 (ChatEvent.endButton PurgeResult.ok)).bind fun s3 =>
  (step s3 (ChatEvent.completionResponse (CompletionResult.ok "pong") 200)).bind fun s4 =>
  (step s4 (ChatEvent.edit "again")).bind fun s5 =>
  step s5 (ChatEvent.send 300)

/-- C2 counterexample.  After the End Chat purge (the `endSession` request
is the fourth store request), the in-flight completion's result `pong` is
still appended to the transcript and persisted, and a further submission
`again` is still accepted (a new completion becomes outstanding).  This
refutes both halves of the claim: the terminated controller accepts a
submit transition, and the in-flight result is appended, not discarded. -/
theorem claim_C2_counterexample :
    (c2Trace.map fun s => s.chat.messages.map Message.content) =
      some [greetingText, "hello", "pong", "again"] ∧
    (c2Trace.map fun s => s.chat.isLoading) = some true ∧
    (c2Trace.map fun s => s.localStore) = some none ∧
    (c2Trace.map fun s => s.storeLog) =
      some [StoreCall.getSession "sid",
            StoreCall.saveSession "sid" initialMessages,
            StoreCall.saveMessage "sid" (userMessage "hello" 100),
            StoreCall.endSession "sid",
            StoreCall.saveMessage "sid" (botMessage (CompletionResult.ok "pong") 200),
            StoreCall.saveMessage "sid" (userMessage "again" 300)] :=
  ⟨rfl, rfl, rfl, rfl⟩

/-- C2 (amended).  `endChat` only purges the remote record, clears the
stored id and toasts: it leaves the component state untouched, so the
controller has no terminated state — after End Chat an in-flight
completion's result is still appended to the transcript and persisted, and
further submissions are still accepted. -/
theorem claim_C2_theorem (s : SysState) (res : PurgeResult) :
    ∃ s', step s (ChatEvent.endButton res) = some s' ∧
      s'.chat = s.chat ∧
      (∀ cres now, s.chat.isLoading = true →
        ∃ s'', step s' (ChatEvent.completionResponse cres now) = some s'' ∧
          s''.chat.messages = s.chat.messages ++ [botMessage cres now] ∧
          s''.storeLog = s'.storeLog ++
            [StoreCall.saveMessage s.chat.sessionId (botMessage cres now)]) ∧
      (∀ now, s.chat.isLoading = false → jsTrim s.chat.input ≠ "" →
        ∃ s'', step s' (ChatEvent.send now) = some s'' ∧
          s''.chat.isLoading = true ∧
          s''.chat.messages = s.chat.messages ++ [userMessage s.chat.input now]) := by
  refine ⟨_, step_endButton_eq s res, rfl, ?_, ?_⟩
  · intro cres now hl
    exact ⟨_, step_completionResponse_of_isLoading _ cres now hl, rfl, rfl⟩
  · intro now hl ht
    exact ⟨_, step_send_of_not_loading _ now hl ht, rfl, rfl⟩

/-- Witness for the amended C2: a concrete state with a completion in
flight still appends the settled result after End Chat. -/
def c2s : SysState :=
  { chat := { input := "", messages := initialMessages, isLoading := true, sessionId := "sid" },
    localStore := some "sid", storeLog := [], completionLog := [], toasts := [] }

/-- Witness for the amended C2 at a concrete in-flight state. -/
theorem claim_C2_witness :
    c2s.chat.isLoading = true ∧
    ∃ s', step c2s (ChatEvent.endButton PurgeResult.ok) = some s' ∧
      ∃ s'', step s' (ChatEvent.completionResponse (CompletionResult.ok "pong") 200) = some s'' ∧
        s''.chat.messages = c2s.chat.messages ++ [botMessage (CompletionResult.ok "pong") 200] := by
  refine ⟨rfl, ?_⟩
  obtain ⟨s', h1, -, h3, -⟩ := claim_C2_theorem c2s PurgeResult.ok
  obtain ⟨s'', h4, h5, -⟩ := h3 (CompletionResult.ok "pong") 200 rfl
  exact ⟨s', h1, s'', h4, h5⟩

/-- C5 (confirmed).  When the completion call fails, exactly one fixed
assistant-role fallback message is appended to the transcript and persisted
via `saveMessage`, a transient toast is surfaced, the loading flag clears,
and the controller immediately accepts a new non-empty submission (a fresh
completion becomes outstanding). -/
theorem claim_C5_theorem (s : SysState) (now : Nat) (h : s.chat.isLoading = true) :
    step s (ChatEvent.completionResponse CompletionResult.err now) =
      some { s with
             chat := { s.chat with
                       messages := s.chat.messages ++ [botMessage CompletionResult.err now],
                       isLoading := false },
             storeLog := s.storeLog ++
               [StoreCall.saveMessage s.chat.sessionId (botMessage CompletionResult.err now)],
             toasts := s.toasts ++ ["Couldn\x27t get a response. Please try again later."] } ∧
    (botMessage CompletionResult.err now).role = Role.bot ∧
    (botMessage CompletionResult.err now).content =
      "I\x27m having trouble connecting right now. Please try again later." ∧
    (∀ q now2, jsTrim q ≠ "" →
      ((step s (ChatEvent.completionResponse CompletionResult.err now)).bind fun s1 =>
        (step s1 (ChatEvent.edit q)).bind fun s2 =>
          step s2 (ChatEvent.send now2)).map (fun s3 => s3.chat.isLoading) = some true) := by
  refine ⟨step_completionResponse_of_isLoading s CompletionResult.err now h, rfl, rfl, ?_⟩
  intro q now2 hq
  rw [step_completionResponse_of_isLoading s CompletionResult.err now h]
  simp [step, handleSendStart, hq]

/-- Concrete in-flight state used as the C5 witness input. -/
def c5State : SysState :=
  { chat := { input := "", messages := initialMessages, isLoading := true, sessionId := "sid" },
    localStore := some "sid", storeLog := [], completionLog := [], toasts := [] }

/-- Witness for C5 at a concrete in-flight state and clock 200. -/
theorem claim_C5_witness :
    c5State.chat.isLoading = true ∧
    step c5State (ChatEvent.completionResponse CompletionResult.err 200) =
      some { c5State with
             chat := { c5State.chat with
                       messages := c5State.chat.messages ++ [botMessage CompletionResult.err 200],
                       isLoading := false },
             storeLog := c5State.storeLog ++
               [StoreCall.saveMessage c5State.chat.sessionId (botMessage CompletionResult.err 200)],
             toasts := c5State.toasts ++
               ["Couldn\x27t get a response. Please try again later."] } :=
  ⟨rfl, (claim_C5_theorem c5State 200 rfl).1⟩

/-- C6 (confirmed).  While a completion is outstanding (`isLoading`), the
submit affordance is disabled, so a second submission is rejected: the
`send` event is impossible.  A submission that does go through after the
first completion settles issues its completion call against the updated
transcript: its context window ends with the first completion's response,
never with a window predating it. -/
theorem claim_C6_theorem (s s' sq s'' : SysState) (res : CompletionResult)
    (q : String) (now now2 now3 : Nat) :
    (s.chat.isLoading = true → step s (ChatEvent.send now) = none) ∧
    (step s (ChatEvent.completionResponse res now2) = some s' →
      step s' (ChatEvent.edit q) = some sq →
      step sq (ChatEvent.send now3) = some s'' →
      jsTrim q ≠ "" →
      s''.completionLog = sq.completionLog ++
        [{ prompt := q, previousMessages := contextWindow sq.chat.messages }] ∧
      (contextWindow sq.chat.messages).getLast? = some (Role.bot, responseText res)) := by
  constructor
  · intro hl
    simp [step, hl]
  · intro h1 h2 h3 hq
    by_cases hl : s.chat.isLoading
    · rw [step_completionResponse_of_isLoading s res now2 hl] at h1
      injection h1 with h1
      subst h1
      rw [step_edit_of_not_loading _ q rfl] at h2
      injection h2 with h2
      subst h2
      rw [step_send_of_not_loading _ now3 rfl hq] at h3
      injection h3 with h3
      subst h3
      refine ⟨rfl, ?_⟩
      simpa using contextWindow_concat_getLast s.chat.messages (botMessage res now2)
    · simp [step, hl] at h1

/-- Concrete states realising a full two-submission exchange for the C6
witness: a completion outstanding for `hello`, its response `pong`, then a
second submission `again`. -/
def c6s : SysState :=
  { chat := { input := "", messages := initialMessages ++ [userMessage "hello" 100],
              isLoading := true, sessionId := "sid" },
    localStore := some "sid",
    storeLog := [StoreCall.saveMessage "sid" (userMessage "hello" 100)],
    completionLog := [{ prompt := "hello", previousMessages := contextWindow initialMessages }],
    toasts := [] }

/-- State after the completion for `hello` settles with `pong`. -/
def c6s1 : SysState :=
  { c6s with
    chat := { c6s.chat with
              messages := c6s.chat.messages ++ [botMessage (CompletionResult.ok "pong") 200],
              isLoading := false },
    storeLog := c6s.storeLog ++
      [StoreCall.saveMessage "sid" (botMessage (CompletionResult.ok "pong") 200)] }

/-- State after typing the second submission `again`. -/
def c6s2 : SysState := { c6s1 with chat := { c6s1.chat with input := "again" } }

/-- State after submitting `again` at clock 300. -/
def c6s3 : SysState :=
  { c6s2 with
    chat := { c6s2.chat with
              messages := c6s2.chat.messages ++ [userMessage "again" 300],
              input := "", isLoading := true },
    storeLog := c6s2.storeLog ++ [StoreCall.saveMessage "sid" (userMessage "again" 300)],
    completionLog := c6s2.completionLog ++
      [{ prompt := "again", previousMessages := contextWindow c6s2.chat.messages }] }

/-- Witness for C6: the concrete second submission is processed against a
window ending with the first completion's response `pong`, and while the
first completion was outstanding the submit event was impossible. -/
theorem claim_C6_witness :
    step c6s (ChatEvent.send 150) = none ∧
    (jsTrim "again" ≠ "") ∧
    c6s3.completionLog = c6s2.completionLog ++
      [{ prompt := "again", previousMessages := contextWindow c6s2.chat.messages }] ∧
    (contextWindow c6s2.chat.messages).getLast? =
      some (Role.bot, responseText (CompletionResult.ok "pong")) := by
  have h := claim_C6_theorem c6s c6s1 c6s2 c6s3 (CompletionResult.ok "pong") "again" 150 200 300
  have h2 := h.2 rfl rfl rfl (by decide)
  exact ⟨h.1 rfl, by decide, h2.1, h2.2⟩

/-- C7 (confirmed).  Starting from any hydrated transcript, a sequence of N
non-empty submissions each followed by a successful completion leaves the
transcript at its seed length plus 2N, and no event of a mounted component
ever shortens the transcript. -/
theorem claim_C7_theorem (st : ChatState) (turns : List Turn)
    (h : ∀ t ∈ turns, jsTrim t.input ≠ "") :
    (runTurns st turns).messages.length = st.messages.length + 2 * turns.length ∧
    (∀ s e s', step s e = some s' → s.chat.messages.length ≤ s'.chat.messages.length) := by
  refine ⟨?_, step_messages_mono⟩
  induction turns generalizing st with
  | nil => simp [runTurns]
  | cons t ts ih =>
      have ht : jsTrim t.input ≠ "" := h t (List.mem_cons_self t ts)
      have hts : ∀ u ∈ ts, jsTrim u.input ≠ "" := fun u hu => h u (List.mem_cons_of_mem t hu)
      simp only [runTurns, List.length_cons]
      rw [ih (runTurn st t) hts, runTurn_length st t ht]
      omega

/-- Concrete two-turn conversation for the C7 witness. -/
def c7Turns : List Turn :=
  [{ input := "hello", reply := "pong", sendTime := 100, replyTime := 200 },
   { input := "how", reply := "fine", sendTime := 300, replyTime := 400 }]

/-- Witness for C7: two successful turns on the seed transcript give
length 1 + 2 * 2 = 5. -/
theorem claim_C7_witness :
    (∀ t ∈ c7Turns, jsTrim t.input ≠ "") ∧
    (runTurns hydratedEmpty.chat c7Turns).messages.length =
      hydratedEmpty.chat.messages.length + 2 * c7Turns.length :=
  ⟨by decide, (claim_C7_theorem hydratedEmpty.chat c7Turns (by decide)).1⟩

/-- C8 (confirmed).  The context window holds at most `maxTurns` (10)
entries, is the role/content projection of a suffix of the transcript
(hence most recent messages, relative order preserved, no ids or
timestamps), and is the full projected transcript whenever the transcript
has at most `maxTurns` messages. -/
theorem claim_C8_theorem (l : List Message) :
    (contextWindow l).length ≤ maxTurns ∧
    (∃ tail, tail <:+ l ∧ tail.length = min maxTurns l.length ∧
      contextWindow l = tail.map fun m => (m.role, m.content)) ∧
    (l.length ≤ maxTurns → contextWindow l = l.map fun m => (m.role, m.content)) := by
  refine ⟨contextWindow_length_le l, ?_, contextWindow_full l⟩
  refine ⟨l.drop (l.length - maxTurns), List.drop_suffix _ l, ?_, rfl⟩
  rw [List.length_drop]
  omega

/-- Witness for C8: a one-message transcript is sent whole. -/
theorem claim_C8_witness :
    initialMessages.length ≤ maxTurns ∧
    contextWindow initialMessages = initialMessages.map fun m => (m.role, m.content) :=
  ⟨by decide, (claim_C8_theorem initialMessages).2.2 (by decide)⟩

/-- C9 (confirmed).  Submitting input that is empty after trimming, while
no completion is pending, leaves the whole system state unchanged: no
transition, no transcript append, no store request and no completion call. -/
theorem claim_C9_theorem (s : SysState) (now : Nat)
    (h1 : s.chat.isLoading = false) (h2 : jsTrim s.chat.input = "") :
    step s (ChatEvent.send now) = some s := by
  cases s with
  | mk chat localStore storeLog completionLog toasts =>
      dsimp only at h1 h2
      simp [step, h1, handleSendStart, h2]

/-- Concrete idle state holding whitespace-only input for the C9 witness. -/
def c9State : SysState :=
  { chat := { input := "   ", messages := initialMessages, isLoading := false,
              sessionId := "sid" },
    localStore := some "sid", storeLog := [StoreCall.getSession "sid"],
    completionLog := [], toasts := [] }

/-- Witness for C9 on the whitespace-only input of the specification. -/
theorem claim_C9_witness :
    c9State.chat.isLoading = false ∧ jsTrim c9State.chat.input = "" ∧
    step c9State (ChatEvent.send 100) = some c9State :=
  ⟨rfl, by decide, claim_C9_theorem c9State 100 rfl (by decide)⟩

/-- C10 (confirmed).  Clicking a rendered suggested query only writes the
query text into the input field — transcript, store log, completion log,
local id and toasts are untouched — and the suggestion buttons exist only
while the transcript holds at most the seed message and no completion is
loading. -/
theorem claim_C10_theorem (s : SysState) (q : String)
    (hq : q ∈ suggestedQueries) :
    (suggestionsShown s.chat = true →
      step s (ChatEvent.suggest q) = some { s with chat := { s.chat with input := q } }) ∧
    (suggestionsShown s.chat = false → step s (ChatEvent.suggest q) = none) ∧
    suggestionsShown s.chat = (decide (s.chat.messages.length ≤ 1) && !s.chat.isLoading) := by
  refine ⟨?_, ?_, rfl⟩
  · intro h
    simp [step, h, hq, handleSuggestedQuery]
  · intro h
    simp [step, h]

/-- Witness for C10: clicking the third suggested query right after an
empty-store hydration populates the input field and nothing else. -/
theorem claim_C10_witness :
    "Common symptoms of dengue fever?" ∈ suggestedQueries ∧
    suggestionsShown hydratedEmpty.chat = true ∧
    step hydratedEmpty (ChatEvent.suggest "Common symptoms of dengue fever?") =
      some { hydratedEmpty with
             chat := { hydratedEmpty.chat with
                       input := "Common symptoms of dengue fever?" } } := by
  refine ⟨by decide, by decide, ?_⟩
  exact (claim_C10_theorem hydratedEmpty _ (by decide)).1 (by decide)

end Chatbot
